import Mathlib

/-!
Verification of the Nudgy mascot generators.

Shallow embedding of the Python sources:
  generate_nudgy_lottie_v1.py  (animation backend: paths, layers, keyframes)
  generate_nudgy_svg.py        (vector backend: paths)
  generate_app_icon_v2.py      (raster backend: tinted silhouette)
  lottie_downloads/embed_images.py (asset embedding loop)

Numeric model: the Python floats are modelled as rationals (all the
constants in the sources are decimal literals, exactly representable in
both `float` and `ℚ`; accumulated float rounding is far below the 1e-3
tolerances the spec uses).  Real numbers enter only where curves are
evaluated at an arbitrary parameter t or where trigonometry occurs.
-/

namespace Nudgy

/-! ## Canvas and timing constants (generate_nudgy_lottie_v1.py) -/

def W : ℚ := 400
def H : ℚ := 460
def FPS : ℕ := 30
def DURATION_SECONDS : ℕ := 7
def TOTAL_FRAMES : ℕ := FPS * DURATION_SECONDS
def CX : ℚ := W / 2
def CY : ℚ := H / 2 + 10
def PSIZE : ℚ := 340

/-- p(fraction) = fraction * PSIZE. -/
def p (fraction : ℚ) : ℚ := fraction * PSIZE

def KAPPA : ℚ := 0.5522848

/-! ## Path descriptors

A Lottie bezier path: closed flag, vertices, in-tangents, out-tangents
(the dict `{"c": .., "v": .., "i": .., "o": ..}` of the source). -/

structure BezPath where
  c : Bool
  v : List (ℚ × ℚ)
  tin : List (ℚ × ℚ)
  tout : List (ℚ × ℚ)
deriving DecidableEq, Repr

/-- ellipse_bezier_path from generate_nudgy_lottie_v1.py: 4 cardinal
vertices with kappa-scaled tangent handles. -/
def ellipse_bezier_path (cx cy rx ry : ℚ) : BezPath :=
  { c := true
    v := [ (cx, cy - ry), (cx + rx, cy), (cx, cy + ry), (cx - rx, cy) ]
    tin := [ (-rx * KAPPA, 0), (0, -ry * KAPPA), (rx * KAPPA, 0), (0, ry * KAPPA) ]
    tout := [ (rx * KAPPA, 0), (0, ry * KAPPA), (-rx * KAPPA, 0), (0, -ry * KAPPA) ] }

/-- egg_shape_path from generate_nudgy_lottie_v1.py: six designer-chosen
vertices, narrower at the top. -/
def egg_shape_path (cx cy body_w body_h : ℚ) : BezPath :=
  let body_cy := cy
  let top_y := body_cy - body_h * 0.85
  { c := true
    v := [ (cx, top_y),
           (cx + body_w * 0.95, body_cy - body_h * 0.1),
           (cx + body_w * 0.75, body_cy + body_h * 0.7),
           (cx, body_cy + body_h * 0.95),
           (cx - body_w * 0.75, body_cy + body_h * 0.7),
           (cx - body_w * 0.95, body_cy - body_h * 0.1) ]
    tin := [ (-body_w * 0.45, 0),
             (0, -body_h * 0.45),
             (body_w * 0.25, body_h * 0.15),
             (body_w * 0.4, 0),
             (-body_w * 0.25, body_h * 0.15),
             (0, body_h * 0.45) ]
    tout := [ (body_w * 0.45, 0),
              (0, body_h * 0.45),
              (-body_w * 0.25, body_h * 0.15),
              (-body_w * 0.4, 0),
              (body_w * 0.25, body_h * 0.15),
              (0, -body_h * 0.45) ] }

/-- rounded_triangle_path from generate_nudgy_lottie_v1.py (beak). -/
def rounded_triangle_path (cx cy w h : ℚ) : BezPath :=
  { c := true
    v := [ (cx, cy + h), (cx - w * 0.8, cy - h * 0.5), (cx + w * 0.8, cy - h * 0.5) ]
    tin := [ (w * 0.3, -h * 0.3), (0, h * 0.3), (w * 0.3, 0) ]
    tout := [ (-w * 0.3, -h * 0.3), (-w * 0.3, 0), (0, h * 0.3) ] }

/-- scarf_path from generate_nudgy_lottie_v1.py: hand-authored 7-vertex
closed curve with trailing tail. -/
def scarf_path (cx cy : ℚ) : BezPath :=
  let scarf_y := cy - p 0.065
  let sh := p 0.035
  let sw := p 0.30
  { c := true
    v := [ (cx - sw, scarf_y - sh),
           (cx, scarf_y - sh * 1.8),
           (cx + sw, scarf_y - sh),
           (cx + sw * 0.5, scarf_y + sh * 2),
           (cx + sw * 0.65, scarf_y + sh * 5),
           (cx + sw * 0.25, scarf_y + sh * 3),
           (cx - sw * 0.3, scarf_y + sh * 2) ]
    tin := [ (0, sh * 0.5),
             (-sw * 0.4, 0),
             (sw * 0.4, 0),
             (sw * 0.15, -sh * 1.5),
             (sw * 0.1, -sh * 1.0),
             (sw * 0.1, sh * 0.8),
             (-sw * 0.3, sh * 0.3) ]
    tout := [ (0, -sh * 0.5),
              (sw * 0.4, 0),
              (sw * 0.05, sh * 1.0),
              (sw * 0.1, sh * 1.2),
              (-sw * 0.15, sh * 0.8),
              (-sw * 0.15, -sh * 1.0),
              (-sw * 0.4, -sh * 0.3) ] }

/-! ## Sway keyframe generation

All three sway emitters in generate_nudgy_lottie_v1.py share the same
while-loop (build_body_sway_layer, build_scarf_counter_sway, and the
per-layer loop inside generate_lottie):

    t = t0; direction = dir0
    while t <= T:
        append (t, sv + amp * direction)   # x-component of "s"
        t += half_cycle
        direction *= -1

followed by a call-site specific closing keyframe.  `swayXsAux` is that
loop with an explicit fuel argument; `swayXs` supplies fuel `T + 1`,
which is enough for any positive step `hc` (the loop body always
increases t by hc ≥ 1, so it runs at most T - t0 + 1 ≤ T + 1 times;
with hc = 0 the Python loop would never terminate, mirrored here by the
fuel running out). -/

def swayXsAux : ℕ → ℚ → ℚ → ℚ → ℕ → ℕ → ℕ → List (ℕ × ℚ)
  | 0, _, _, _, _, _, _ => []
  | fuel + 1, sv, amp, dir, hc, t, T =>
    if t ≤ T then (t, sv + amp * dir) :: swayXsAux fuel sv amp (-dir) hc (t + hc) T
    else []

def swayXs (sv amp dir : ℚ) (hc t0 T : ℕ) : List (ℕ × ℚ) :=
  swayXsAux (T + 1) sv amp dir hc t0 T

/-- The per-layer sway track built by generate_lottie (lines 771-784,
the x-component): the ping-pong loop from t=0 with start direction +1,
then a closing keyframe at t=T holding `static_val[0] + sway_amp`. -/
def sway_track (sv amp : ℚ) (hc T : ℕ) : List (ℕ × ℚ) :=
  swayXs sv amp 1 hc 0 T ++ [(T, sv + amp)]

/-- build_body_sway_layer, position keyframes: sv = W/2, amp = 2,
half_cycle = 45, closing keyframe holds W/2 + amp.  (Only the animated
x-component; y and z are the constants H/2 and 0 on every keyframe.) -/
def body_sway_pos_kfs : List (ℕ × ℚ) :=
  swayXs (W / 2) 2.0 1 45 0 TOTAL_FRAMES ++ [(TOTAL_FRAMES, W / 2 + 2.0)]

/-- build_body_sway_layer, rotation keyframes: amplitude 0.8 about 0,
closing keyframe holds 0.8. -/
def body_sway_rot_kfs : List (ℕ × ℚ) :=
  swayXs 0 0.8 1 45 0 TOTAL_FRAMES ++ [(TOTAL_FRAMES, 0.8)]

/-- build_scarf_counter_sway, position keyframes: the loop starts at
t = phase_offset = 8 with direction -1 and amplitude 1.5; the closing
keyframe appended afterwards holds [W/2, H/2, 0], i.e. x = W/2. -/
def scarf_counter_sway_kfs : List (ℕ × ℚ) :=
  swayXs (W / 2) 1.5 (-1) 45 8 TOTAL_FRAMES ++ [(TOTAL_FRAMES, W / 2)]

/-! ## Blink keyframes (build_eye_layer) -/

def blink_frame_1 : ℕ := 100
def blink_frame_2 : ℕ := 195

/-- Scale keyframes of build_eye_layer.  The list is built afresh for
each eye and does not depend on `side` (so the two eyes carry
independent, structurally identical tracks); values are the
[x, y, z] scale percentages. -/
def eye_scale_track (_side : ℤ) : List (ℕ × (ℚ × ℚ × ℚ)) :=
  [ (0, (100, 100, 100)),
    (blink_frame_1 - 2, (100, 100, 100)),
    (blink_frame_1, (100, 15, 100)),
    (blink_frame_1 + 1, (100, 15, 100)),
    (blink_frame_1 + 4, (100, 100, 100)),
    (blink_frame_2 - 2, (100, 100, 100)),
    (blink_frame_2, (100, 15, 100)),
    (blink_frame_2 + 1, (100, 15, 100)),
    (blink_frame_2 + 4, (100, 100, 100)),
    (TOTAL_FRAMES, (100, 100, 100)) ]

/-- Eye radius of build_eye_layer: er = p(0.042) * (1.05 if side == 1
else 1.0) — the right eye is 5% larger by design. -/
def eye_er (side : ℤ) : ℚ := p 0.042 * (if side = 1 then 1.05 else 1.0)

/-! ## Track evaluation

`valueAt` returns the value of the last keyframe whose time is ≤ t, and
the first keyframe's value when t lies before every keyframe.  On the
hold region before the first keyframe, at any keyframe time, and at or
after the last keyframe this agrees exactly with Lottie keyframe
interpolation (the cubic easing only shapes values strictly between two
keyframe times, where no claim samples the track). -/

def valueAt {V : Type} (dflt : V) (kfs : List (ℕ × V)) (t : ℕ) : V :=
  match (kfs.filter (fun kf => kf.1 ≤ t)).getLast? with
  | some kf => kf.2
  | none =>
    match kfs.head? with
    | some kf => kf.2
    | none => dflt

/-! ## Real-valued geometry

The flipper constructor computes a rotation with math.cos/math.sin, so
it lives over ℝ (hence the noncomputable section); everything else in
the sources is decimal-literal arithmetic and stays over ℚ. -/

noncomputable section RealGeometry

/-- Real-valued path descriptor (for the flipper, whose coordinates
involve cos/sin). -/
structure BezPathR where
  c : Bool
  v : List (ℝ × ℝ)
  tin : List (ℝ × ℝ)
  tout : List (ℝ × ℝ)

/-- The `rot` helper of wing_path (both generators): rotate the local
point (x, y) by the precomputed cosine/sine and translate by the pivot
(ox, oy). -/
def rot (cos_a sin_a ox oy x y : ℝ) : ℝ × ℝ :=
  (x * cos_a - y * sin_a + ox, x * sin_a + y * cos_a + oy)

/-- The `rot_t` helper of wing_path (Lottie generator): rotate a
tangent vector only — direction, never translated. -/
def rot_t (cos_a sin_a x y : ℝ) : ℝ × ℝ :=
  (x * cos_a - y * sin_a, x * sin_a + y * cos_a)

/-- wing_path from generate_nudgy_lottie_v1.py: the flipper built in a
local frame and rotated by side * angle_deg degrees about the pivot
(wing_x, oy); math.radians(d) = d * π / 180. -/
def wing_path (cx cy side wing_w wing_h : ℝ) (angle_deg : ℝ) : BezPathR :=
  let wing_x := cx + side * ((p 0.37 : ℚ) : ℝ)
  let wy := cy + ((p 0.02 : ℚ) : ℝ)
  let oy := wy - wing_h * 0.4
  let rad := Real.pi * (side * angle_deg) / 180
  let cos_a := Real.cos rad
  let sin_a := Real.sin rad
  { c := true
    v := [ rot cos_a sin_a wing_x oy 0 (-wing_h * 0.5),
           rot cos_a sin_a wing_x oy (side * wing_w * 0.9) 0,
           rot cos_a sin_a wing_x oy (side * wing_w * 0.4) (wing_h * 0.5),
           rot cos_a sin_a wing_x oy (-side * wing_w * 0.1) 0 ]
    tin := [ rot_t cos_a sin_a (-side * wing_w * 0.2) (-wing_h * 0.1),
             rot_t cos_a sin_a 0 (-wing_h * 0.25),
             rot_t cos_a sin_a (side * wing_w * 0.3) 0,
             rot_t cos_a sin_a 0 (wing_h * 0.2) ]
    tout := [ rot_t cos_a sin_a (side * wing_w * 0.3) 0,
              rot_t cos_a sin_a 0 (wing_h * 0.25),
              rot_t cos_a sin_a (-side * wing_w * 0.2) 0,
              rot_t cos_a sin_a 0 (-wing_h * 0.2) ] }

/-- Rotation about a pivot acting on world points: the source's `rot`
applied to the pivot-relative coordinates of the point (wing_path feeds
`rot` coordinates that are local to the pivot). -/
def rotAbout (theta ox oy : ℝ) (q : ℝ × ℝ) : ℝ × ℝ :=
  rot (Real.cos theta) (Real.sin theta) ox oy (q.1 - ox) (q.2 - oy)

/-- One coordinate of a cubic bezier with control values a b c d at
parameter t (Bernstein form). -/
def bez1 (a b c d t : ℝ) : ℝ :=
  (1 - t) ^ 3 * a + 3 * (1 - t) ^ 2 * t * b + 3 * (1 - t) * t ^ 2 * c + t ^ 3 * d

/-- Point of a cubic bezier segment with the four control points. -/
def bezPt (p0 p1 p2 p3 : ℝ × ℝ) (t : ℝ) : ℝ × ℝ :=
  (bez1 p0.1 p1.1 p2.1 p3.1 t, bez1 p0.2 p1.2 p2.2 p3.2 t)

/-- Squared Euclidean distance of two points. -/
def dist2 (q r : ℝ × ℝ) : ℝ := (q.1 - r.1) ^ 2 + (q.2 - r.2) ^ 2

/-- Length of the polygonal chain through the given points; the arc
length of a curve is the supremum of these over sampled parameter
partitions, so a map that preserves every polygonal length preserves
the total path length. -/
def polyLength : List (ℝ × ℝ) → ℝ
  | q :: r :: rest => Real.sqrt (dist2 q r) + polyLength (r :: rest)
  | _ => 0

end RealGeometry

/-! ## Cubic segments and curves

A Lottie path and an SVG path both denote a closed chain of cubic
bezier segments; `Seg` is one segment by its four absolute control
points.  (The SVG generator additionally rounds each coordinate to two
decimals when serializing — `fmt` — which is not modelled: the curve a
path function describes is the one its computed control points give.) -/

structure Seg where
  q0 : ℚ × ℚ
  q1 : ℚ × ℚ
  q2 : ℚ × ℚ
  q3 : ℚ × ℚ
deriving DecidableEq, Repr

/-- Absolute cubic segments of a Lottie vertex/tangent path: segment k
runs from vertex k (leaving along its out-tangent) to vertex k+1 mod n
(arriving along its in-tangent). -/
def segsOf (path : BezPath) : List Seg :=
  let n := path.v.length
  (List.range n).map (fun k =>
    let v0 := path.v.getD k (0, 0)
    let o0 := path.tout.getD k (0, 0)
    let v1 := path.v.getD ((k + 1) % n) (0, 0)
    let i1 := path.tin.getD ((k + 1) % n) (0, 0)
    { q0 := v0
      q1 := (v0.1 + o0.1, v0.2 + o0.2)
      q2 := (v1.1 + i1.1, v1.2 + i1.2)
      q3 := v1 })

namespace SVG

/-! Constants of generate_nudgy_svg.py (same numeric values as the
Lottie module's). -/

def ART_W : ℚ := 400
def ART_H : ℚ := 460
def CX : ℚ := ART_W / 2
def CY : ℚ := ART_H / 2 + 10
def PSIZE : ℚ := 340

/-- p(fraction) of the SVG generator. -/
def p (fraction : ℚ) : ℚ := fraction * PSIZE

/-- ellipse_path from generate_nudgy_svg.py, as the four cubic segments
its path string spells out (local constant k = 0.5522848). -/
def ellipse_path (cx cy rx ry : ℚ) : List Seg :=
  let k : ℚ := 0.5522848
  [ ⟨(cx, cy - ry), (cx + rx * k, cy - ry), (cx + rx, cy - ry * k), (cx + rx, cy)⟩,
    ⟨(cx + rx, cy), (cx + rx, cy + ry * k), (cx + rx * k, cy + ry), (cx, cy + ry)⟩,
    ⟨(cx, cy + ry), (cx - rx * k, cy + ry), (cx - rx, cy + ry * k), (cx - rx, cy)⟩,
    ⟨(cx - rx, cy), (cx - rx, cy - ry * k), (cx - rx * k, cy - ry), (cx, cy - ry)⟩ ]

/-- body_path from generate_nudgy_svg.py: the egg/pear body as the four
cubic segments of its path string. -/
def body_path : List Seg :=
  let body_w := p 0.44
  let body_h := p 0.48
  let body_cy := CY + p 0.08
  let top_x := CX
  let top_y := body_cy - body_h * 0.85
  [ ⟨(top_x, top_y),
     (CX + body_w * 0.6, top_y),
     (CX + body_w * 1.1, body_cy - body_h * 0.15),
     (CX + body_w * 0.95, body_cy + body_h * 0.5)⟩,
    ⟨(CX + body_w * 0.95, body_cy + body_h * 0.5),
     (CX + body_w * 0.85, body_cy + body_h * 0.85),
     (CX + body_w * 0.4, body_cy + body_h * 1.0),
     (CX, body_cy + body_h * 0.95)⟩,
    ⟨(CX, body_cy + body_h * 0.95),
     (CX - body_w * 0.4, body_cy + body_h * 1.0),
     (CX - body_w * 0.85, body_cy + body_h * 0.85),
     (CX - body_w * 0.95, body_cy + body_h * 0.5)⟩,
    ⟨(CX - body_w * 0.95, body_cy + body_h * 0.5),
     (CX - body_w * 1.1, body_cy - body_h * 0.15),
     (CX - body_w * 0.6, top_y),
     (top_x, top_y)⟩ ]

end SVG

/-- The Lottie body segments: build_body_layer calls
egg_shape_path(CX, CY + p(0.08), p(0.44), p(0.48)). -/
def lottie_body_segs : List Seg :=
  segsOf (egg_shape_path CX (CY + p 0.08) (p 0.44) (p 0.48))

/-- Cast a rational point to the real plane. -/
def castPt (q : ℚ × ℚ) : ℝ × ℝ := ((q.1 : ℝ), (q.2 : ℝ))

/-- Point of a rational cubic segment at real parameter t. -/
noncomputable def bezSeg (s : Seg) (t : ℝ) : ℝ × ℝ :=
  bezPt (castPt s.q0) (castPt s.q1) (castPt s.q2) (castPt s.q3) t

/-- The curve described by a chain of cubic segments, as its set of
points: every segment traced over the full parameter interval. -/
def curvePoints (segs : List Seg) : Set (ℝ × ℝ) :=
  { q | ∃ s ∈ segs, ∃ t : ℝ, 0 ≤ t ∧ t ≤ 1 ∧ bezSeg s t = q }

/-! ## Asset embedding (lottie_downloads/embed_images.py) -/

structure Asset where
  id : String
  p : String
  u : String
  e : ℕ
deriving DecidableEq, Repr

/-- Extension part of os.path.splitext: everything from the last dot
(inclusive), empty when the name has no dot.  (Python's special-casing
of a leading dot in the basename is irrelevant to the asset names at
hand and not modelled.) -/
def splitext_ext (s : String) : String :=
  if s.data.contains '.'
  then String.mk ('.' :: (s.data.reverse.takeWhile (fun ch => ch ≠ '.')).reverse)
  else ""

/-- The mime choice of the embedding loop. -/
def mime_for (ext : String) : String :=
  if ext = ".webp" then "image/webp"
  else if ext = ".png" then "image/png"
  else "image/png"

/-- One iteration of the embedding loop: look the asset's image up in
the archive's name list; on success rewrite the asset to embedded form
(u cleared, p a data URI, e = 1), on failure leave it unchanged and
report the failed lookup key.  `zread` stands for zipfile reading and
`b64encode` for base64.b64encode (both external to the repository). -/
def embed_asset (image_files : List String) (zread : String → String)
    (b64encode : String → String) (a : Asset) : Asset × Option String :=
  let possible := "images/" ++ a.p
  if possible ∈ image_files then
    let img_data := zread possible
    let ext := (splitext_ext a.p).toLower
    let mime := mime_for ext
    ({ a with u := "", p := "data:" ++ mime ++ ";base64," ++ b64encode img_data, e := 1 },
     none)
  else
    (a, some possible)

/-- The embedding loop over the asset list: every asset is processed;
missing-image keys are collected (the source prints them) and never
abort the batch. -/
def embed_assets (image_files : List String) (zread : String → String)
    (b64encode : String → String) : List Asset → List Asset × List String
  | [] => ([], [])
  | a :: rest =>
    let head := embed_asset image_files zread b64encode a
    let tail := embed_assets image_files zread b64encode rest
    (head.1 :: tail.1,
     match head.2 with
     | some k => k :: tail.2
     | none => tail.2)

/-! ## Characterization of the sway loop -/

theorem swayXsAux_nil {fuel : ℕ} {sv amp dir : ℚ} {hc t T : ℕ} (h : ¬ t ≤ T) :
    swayXsAux fuel sv amp dir hc t T = [] := by
  cases fuel with
  | zero => rfl
  | succ n => rw [swayXsAux, if_neg h]

theorem swayXsAux_eq_map {hc : ℕ} (hhc : 0 < hc) :
    ∀ fuel t0 T, t0 ≤ T → T < t0 + fuel → ∀ sv amp dir,
      swayXsAux fuel sv amp dir hc t0 T
        = (List.range ((T - t0) / hc + 1)).map
            (fun i => (t0 + hc * i, sv + amp * dir * (-1 : ℚ) ^ i)) := by
  intro fuel
  induction fuel with
  | zero => intro t0 T h1 h2; omega
  | succ n ih =>
    intro t0 T h1 h2 sv amp dir
    rw [swayXsAux, if_pos h1]
    by_cases h : t0 + hc ≤ T
    · rw [ih (t0 + hc) T h (by omega)]
      have hcount : (T - t0) / hc = (T - (t0 + hc)) / hc + 1 := by
        have heq : T - t0 = (T - (t0 + hc)) + hc := by omega
        rw [heq, Nat.add_div_right _ hhc]
      rw [hcount]
      conv_rhs => rw [List.range_succ_eq_map, List.map_cons, List.map_map]
      refine List.cons_eq_cons.mpr ⟨?_, ?_⟩
      · norm_num
      · refine List.map_congr_left ?_
        intro i _
        simp only [Function.comp_apply, Prod.mk.injEq]
        constructor
        · rw [Nat.succ_eq_add_one]
          ring
        · rw [pow_succ]
          ring
    · rw [swayXsAux_nil h]
      have hz : (T - t0) / hc = 0 := Nat.div_eq_of_lt (by omega)
      rw [hz]
      simp [List.range_succ]

theorem swayXs_eq_map {sv amp dir : ℚ} {hc t0 T : ℕ} (hhc : 0 < hc) (h : t0 ≤ T) :
    swayXs sv amp dir hc t0 T
      = (List.range ((T - t0) / hc + 1)).map
          (fun i => (t0 + hc * i, sv + amp * dir * (-1 : ℚ) ^ i)) :=
  swayXsAux_eq_map hhc (T + 1) t0 T h (by omega) sv amp dir

theorem sway_track_eq_map {sv amp : ℚ} {hc T : ℕ} (hhc : 0 < hc) :
    sway_track sv amp hc T
      = (List.range (T / hc + 1)).map
          (fun i => (hc * i, sv + amp * (-1 : ℚ) ^ i)) ++ [(T, sv + amp)] := by
  rw [sway_track, swayXs_eq_map hhc (Nat.zero_le T)]
  simp

theorem TOTAL_FRAMES_eq : TOTAL_FRAMES = 210 := rfl

theorem sway_track_get {sv amp : ℚ} {hc T : ℕ} (hhc : 0 < hc) (i : ℕ) (hi : i ≤ T / hc) :
    (sway_track sv amp hc T)[i]? = some (hc * i, sv + amp * (-1 : ℚ) ^ i) := by
  rw [sway_track_eq_map hhc, List.getElem?_append, if_pos (by simp; omega)]
  simp [List.getElem?_map, List.getElem?_range (by omega : i < T / hc + 1)]

theorem scarf_kfs_eq : scarf_counter_sway_kfs
    = [(8, 397/2), (53, 403/2), (98, 397/2), (143, 403/2), (188, 397/2), (210, 200)] := by
  rw [scarf_counter_sway_kfs, swayXs_eq_map (by norm_num) (by norm_num [TOTAL_FRAMES_eq])]
  norm_num [List.range_succ, TOTAL_FRAMES_eq, W, H]

theorem body_pos_kfs_eq : body_sway_pos_kfs
    = [(0, 202), (45, 198), (90, 202), (135, 198), (180, 202), (210, 202)] := by
  rw [body_sway_pos_kfs, swayXs_eq_map (by norm_num) (by norm_num [TOTAL_FRAMES_eq])]
  norm_num [List.range_succ, TOTAL_FRAMES_eq, W, H]

theorem body_rot_kfs_eq : body_sway_rot_kfs
    = [(0, 0.8), (45, -0.8), (90, 0.8), (135, -0.8), (180, 0.8), (210, 0.8)] := by
  rw [body_sway_rot_kfs, swayXs_eq_map (by norm_num) (by norm_num [TOTAL_FRAMES_eq])]
  norm_num [List.range_succ, TOTAL_FRAMES_eq]

/-- Claim C1.  The loop-seam property (value at frame 0 equals value at
frame 210) holds for the body sway position track, the body sway
rotation track and both eyes' blink scale tracks, but FAILS for the
scarf counter-sway position track: its first keyframe sits at t=8 with
value W/2 - 1.5 = 198.5 (which is also its held value at t=0), while
its closing keyframe at t=210 holds W/2 = 200, a 1.5px jump at the
seam, far beyond the 1e-3 tolerance.  This contradicts the source's own
claim of seamless looping, so the code, not the claim, is at fault. -/
theorem c1_loop_seam_eval :
    valueAt 0 body_sway_pos_kfs 0 = valueAt 0 body_sway_pos_kfs TOTAL_FRAMES
    ∧ valueAt 0 body_sway_rot_kfs 0 = valueAt 0 body_sway_rot_kfs TOTAL_FRAMES
    ∧ valueAt (0, 0, 0) (eye_scale_track (-1)) 0
        = valueAt (0, 0, 0) (eye_scale_track (-1)) TOTAL_FRAMES
    ∧ valueAt (0, 0, 0) (eye_scale_track 1) 0
        = valueAt (0, 0, 0) (eye_scale_track 1) TOTAL_FRAMES
    ∧ scarf_counter_sway_kfs.head? = some (8, W / 2 - 1.5)
    ∧ scarf_counter_sway_kfs.getLast? = some (TOTAL_FRAMES, W / 2)
    ∧ valueAt 0 scarf_counter_sway_kfs 0 = W / 2 - 1.5
    ∧ valueAt 0 scarf_counter_sway_kfs TOTAL_FRAMES = W / 2
    ∧ ¬ |valueAt 0 scarf_counter_sway_kfs 0
          - valueAt 0 scarf_counter_sway_kfs TOTAL_FRAMES| ≤ 1 / 1000 := by
  refine ⟨?_, ?_, by decide, by decide, ?_, ?_, ?_, ?_, ?_⟩
  · rw [body_pos_kfs_eq, TOTAL_FRAMES_eq]
    norm_num [valueAt]
  · rw [body_rot_kfs_eq, TOTAL_FRAMES_eq]
    norm_num [valueAt]
  · rw [scarf_kfs_eq]
    norm_num [W]
  · rw [scarf_kfs_eq, TOTAL_FRAMES_eq]
    norm_num [W]
  · rw [scarf_kfs_eq]
    norm_num [valueAt, W]
  · rw [scarf_kfs_eq, TOTAL_FRAMES_eq]
    norm_num [valueAt, W]
  · rw [scarf_kfs_eq, TOTAL_FRAMES_eq]
    norm_num [valueAt, W]
    rw [show |(3 : ℚ) / 2| = 3 / 2 from abs_of_pos (by norm_num)]
    norm_num

/-- Claim C2, counterexample.  At A=2, H=45, T=210 the sway generator
emits 6 keyframes, not ceil(T/H) + 2 = 7 (the loop runs floor(T/H) + 1
times); and at A=2, H=45, T=45 the closing keyframe holds +2 even
though one half-cycle has completed, whose implied value would be
2 * (-1)^(45/45) = -2 — the closing value is hardcoded to +A, not
computed. -/
theorem c2_sway_count_cex :
    ((sway_track 0 2 45 210).length = 6 ∧ (210 + 45 - 1) / 45 + 2 = 7 ∧ (6 : ℕ) ≠ 7)
    ∧ (sway_track 0 2 45 45 = [(0, 2), (45, -2), (45, 2)]
        ∧ (2 : ℚ) ≠ 2 * (-1 : ℚ) ^ (45 / 45)) := by
  refine ⟨⟨?_, by norm_num, by norm_num⟩, ?_, by norm_num⟩
  · rw [sway_track_eq_map (by norm_num)]
    simp
  · rw [sway_track_eq_map (by norm_num)]
    norm_num [List.range_succ]

/-- Claim C2 (amended).  For amplitude A, half-cycle H > 0 and total
duration T, the sway generator produces exactly floor(T/H) + 2
keyframes; loop keyframe i (i ≤ T/H) sits at t = i*H with value
A * (-1)^i, so the sign alternates at each multiple of H; the appended
closing keyframe at t=T holds the start value +A (hardcoded); for
A=2, H=45, T=210 this gives keyframes at t=0(+2), 45(-2), 90(+2),
135(-2), 180(+2) and a closing keyframe at t=210 holding +2. -/
theorem c2_sway_track_amended :
    (∀ (sv amp : ℚ) (hc T : ℕ), 0 < hc →
        (sway_track sv amp hc T).length = T / hc + 2
        ∧ (∀ i, i ≤ T / hc →
            (sway_track sv amp hc T)[i]? = some (hc * i, sv + amp * (-1 : ℚ) ^ i))
        ∧ (sway_track sv amp hc T).getLast? = some (T, sv + amp))
    ∧ sway_track 0 2 45 210 = [(0, 2), (45, -2), (90, 2), (135, -2), (180, 2), (210, 2)] := by
  constructor
  · intro sv amp hc T hhc
    refine ⟨?_, fun i hi => sway_track_get hhc i hi, ?_⟩
    · rw [sway_track_eq_map hhc]
      simp
    · rw [sway_track]
      exact List.getLast?_concat _
  · rw [sway_track_eq_map (by norm_num)]
    norm_num [List.range_succ]

theorem c2_sway_track_amended_witness :
    0 < 45 ∧ (sway_track 0 2 45 210).length = 210 / 45 + 2 :=
  ⟨by norm_num, (c2_sway_track_amended.1 0 2 45 210 (by norm_num)).1⟩

/-- Claim C10.  Whenever the half-cycle hc divides T, the sway
generator emits two keyframes at the same time t=T: the loop keyframe
at index T/hc and, right after it, the appended closing keyframe; when
T/hc is odd they carry opposite values (sv - A from the loop, sv + A
from the closing hold). -/
theorem c10_duplicate_seam_keyframe :
    ∀ (sv amp : ℚ) (hc T : ℕ), 0 < hc → hc ∣ T →
      (sway_track sv amp hc T)[T / hc]? = some (T, sv + amp * (-1 : ℚ) ^ (T / hc))
      ∧ (sway_track sv amp hc T)[T / hc + 1]? = some (T, sv + amp)
      ∧ (Odd (T / hc) → sv + amp * (-1 : ℚ) ^ (T / hc) = sv - amp) := by
  intro sv amp hc T hhc hdvd
  refine ⟨?_, ?_, ?_⟩
  · have h := @sway_track_get sv amp hc T hhc (T / hc) le_rfl
    rwa [Nat.mul_div_cancel' hdvd] at h
  · rw [sway_track_eq_map hhc, List.getElem?_append, if_neg (by simp)]
    simp
  · intro hodd
    rw [Odd.neg_one_pow hodd]
    ring

theorem c10_duplicate_seam_keyframe_witness :
    (0 < 45 ∧ (45 : ℕ) ∣ 45 ∧ Odd (45 / 45))
    ∧ ((sway_track 0 2 45 45)[45 / 45]? = some (45, 0 + 2 * (-1 : ℚ) ^ (45 / 45))
        ∧ (sway_track 0 2 45 45)[45 / 45 + 1]? = some (45, 0 + 2)
        ∧ (Odd (45 / 45) → (0 : ℚ) + 2 * (-1 : ℚ) ^ (45 / 45) = 0 - 2)) :=
  ⟨⟨by norm_num, by norm_num, by decide⟩,
    c10_duplicate_seam_keyframe 0 2 45 45 (by norm_num) (by norm_num)⟩

/-- Claim C6.  The blink scale track: both eyes carry the same sequence
(each built independently per eye); every keyframe keeps x and z scale
at 100 (the squish is y-only); the track holds (100,100,100) up to 2
frames before each blink, drops to y=15 (15% of open) at the blink
frame, holds closed for 1 frame, and is back to exactly (100,100,100)
at blink + 4 ≤ 104; the right eye's radius is 1.05 times the left
one's, so the designed asymmetry is untouched by the shared scale
track. -/
theorem c6_blink_track :
    eye_scale_track (-1) = eye_scale_track 1
    ∧ eye_scale_track 1 =
        [ (0, (100, 100, 100)), (98, (100, 100, 100)), (100, (100, 15, 100)),
          (101, (100, 15, 100)), (104, (100, 100, 100)), (193, (100, 100, 100)),
          (195, (100, 15, 100)), (196, (100, 15, 100)), (199, (100, 100, 100)),
          (210, (100, 100, 100)) ]
    ∧ (∀ kf ∈ eye_scale_track 1, kf.2.1 = 100 ∧ kf.2.2.2 = 100)
    ∧ valueAt (0, 0, 0) (eye_scale_track 1) (blink_frame_1 - 2) = (100, 100, 100)
    ∧ valueAt (0, 0, 0) (eye_scale_track 1) blink_frame_1 = (100, 15, 100)
    ∧ (15 : ℚ) = 0.15 * 100
    ∧ valueAt (0, 0, 0) (eye_scale_track 1) (blink_frame_1 + 1) = (100, 15, 100)
    ∧ valueAt (0, 0, 0) (eye_scale_track 1) (blink_frame_1 + 4) = (100, 100, 100)
    ∧ blink_frame_1 + 4 ≤ 104
    ∧ eye_er 1 = 1.05 * eye_er (-1) := by
  refine ⟨by decide, by decide, by decide, by decide, by decide, by norm_num,
    by decide, by decide, by decide, ?_⟩
  norm_num [eye_er, p, PSIZE]

/-- Claim C4 fails as stated: the ellipse constructor, called with the
non-positive radius rx = -5, raises nothing and happily produces a
closed 4-vertex PathDescriptor (there is no InvalidGeometry anywhere in
the sources). -/
theorem c4_no_validation_cex :
    ellipse_bezier_path 100 100 (-5) 30
      = { c := true
          v := [(100, 70), (95, 100), (100, 130), (105, 100)]
          tin := [(5 * KAPPA, 0), (0, -30 * KAPPA), (-5 * KAPPA, 0), (0, 30 * KAPPA)]
          tout := [(-5 * KAPPA, 0), (0, 30 * KAPPA), (5 * KAPPA, 0), (0, -30 * KAPPA)] }
    ∧ (ellipse_bezier_path 100 100 (-5) 30).v.length = 4 := by
  refine ⟨?_, rfl⟩
  simp only [ellipse_bezier_path, BezPath.mk.injEq]
  norm_num

/-- Claim C4 (amended): the primitive shape constructors perform no
input validation at all — for every parameter values, non-positive
sizes included, each one totally returns a closed PathDescriptor with
its fixed vertex/tangent count (4 for the ellipse, 6 for the egg, 3 for
the rounded triangle, 4 for the flipper, 7 for the scarf); no
InvalidGeometry failure path exists. -/
theorem c4_constructors_total :
    (∀ cx cy rx ry : ℚ,
        (ellipse_bezier_path cx cy rx ry).c = true
        ∧ (ellipse_bezier_path cx cy rx ry).v.length = 4
        ∧ (ellipse_bezier_path cx cy rx ry).tin.length = 4
        ∧ (ellipse_bezier_path cx cy rx ry).tout.length = 4)
    ∧ (∀ cx cy bw bh : ℚ,
        (egg_shape_path cx cy bw bh).c = true ∧ (egg_shape_path cx cy bw bh).v.length = 6)
    ∧ (∀ cx cy w h : ℚ,
        (rounded_triangle_path cx cy w h).c = true
        ∧ (rounded_triangle_path cx cy w h).v.length = 3)
    ∧ (∀ cx cy side ww wh ang : ℝ,
        (wing_path cx cy side ww wh ang).c = true
        ∧ (wing_path cx cy side ww wh ang).v.length = 4)
    ∧ (∀ cx cy : ℚ, (scarf_path cx cy).c = true ∧ (scarf_path cx cy).v.length = 7) :=
  ⟨fun _ _ _ _ => ⟨rfl, rfl, rfl, rfl⟩,
   fun _ _ _ _ => ⟨rfl, rfl⟩,
   fun _ _ _ _ => ⟨rfl, rfl⟩,
   fun _ _ _ _ _ _ => ⟨rfl, rfl⟩,
   fun _ _ => ⟨rfl, rfl⟩⟩

/-! ## Asset embedding lemmas -/

theorem embed_assets_fst (fs : List String) (zr b64 : String → String) (assets : List Asset) :
    (embed_assets fs zr b64 assets).1 = assets.map (fun a => (embed_asset fs zr b64 a).1) := by
  induction assets with
  | nil => rfl
  | cons a rest ih => simp [embed_assets, ih]

theorem embed_assets_snd (fs : List String) (zr b64 : String → String) (assets : List Asset) :
    (embed_assets fs zr b64 assets).2
      = assets.filterMap (fun a => (embed_asset fs zr b64 a).2) := by
  induction assets with
  | nil => rfl
  | cons a rest ih =>
    rw [List.filterMap_cons]
    cases h : (embed_asset fs zr b64 a).2 with
    | none => simp [embed_assets, h, ih]
    | some k => simp [embed_assets, h, ih]

/-- Claim C9.  The embedding loop processes every asset (the output
list has the input's length — the batch is never aborted); an asset
whose image is missing from the archive's image set is left unchanged
and its failed lookup key "images/<p>" is reported; an asset whose
image is found is rewritten to embedded form: u cleared, p replaced by
a data URI carrying the encoded image bytes, e set to 1. -/
theorem c9_embed_assets_spec :
    ∀ (fs : List String) (zr b64 : String → String) (assets : List Asset),
      (embed_assets fs zr b64 assets).1.length = assets.length
      ∧ (∀ (i : ℕ) (a : Asset), assets[i]? = some a →
          (("images/" ++ a.p) ∉ fs →
            (embed_assets fs zr b64 assets).1[i]? = some a
            ∧ ("images/" ++ a.p) ∈ (embed_assets fs zr b64 assets).2)
          ∧ (("images/" ++ a.p) ∈ fs →
            (embed_assets fs zr b64 assets).1[i]? =
              some { a with
                     u := "",
                     p := "data:" ++ mime_for ((splitext_ext a.p).toLower)
                            ++ ";base64," ++ b64 (zr ("images/" ++ a.p)),
                     e := 1 })) := by
  intro fs zr b64 assets
  refine ⟨by rw [embed_assets_fst]; simp, ?_⟩
  intro i a ha
  have hmem : a ∈ assets := List.getElem?_mem ha
  constructor
  · intro hnot
    constructor
    · rw [embed_assets_fst, List.getElem?_map, ha]
      simp [embed_asset, if_neg hnot]
    · rw [embed_assets_snd]
      refine List.mem_filterMap.mpr ⟨a, hmem, ?_⟩
      simp [embed_asset, if_neg hnot]
  · intro hin
    rw [embed_assets_fst, List.getElem?_map, ha]
    simp [embed_asset, if_pos hin]

theorem c9_embed_assets_spec_witness :
    (([(⟨"a", "a.png", "x", 0⟩ : Asset)] : List Asset)[0]? = some ⟨"a", "a.png", "x", 0⟩
      ∧ ("images/" ++ "a.png") ∈ ["images/a.png"])
    ∧ (embed_assets ["images/a.png"] (fun _ => "IMG") (fun s => s)
          [⟨"a", "a.png", "x", 0⟩]).1[0]?
        = some { (⟨"a", "a.png", "x", 0⟩ : Asset) with
                 u := "",
                 p := "data:" ++ mime_for ((splitext_ext "a.png").toLower)
                        ++ ";base64," ++ (fun s => s) ((fun _ => "IMG") ("images/" ++ "a.png")),
                 e := 1 } :=
  ⟨⟨rfl, List.mem_singleton.mpr rfl⟩,
   ((c9_embed_assets_spec ["images/a.png"] (fun _ => "IMG") (fun s => s)
        [⟨"a", "a.png", "x", 0⟩]).2 0 ⟨"a", "a.png", "x", 0⟩ rfl).2
      (List.mem_singleton.mpr rfl)⟩

/-! ## Rotation algebra -/

theorem dist2_rotAbout (theta ox oy : ℝ) (q r : ℝ × ℝ) :
    dist2 (rotAbout theta ox oy q) (rotAbout theta ox oy r) = dist2 q r := by
  have h := Real.sin_sq_add_cos_sq theta
  simp only [dist2, rotAbout, rot]
  linear_combination ((q.1 - r.1) ^ 2 + (q.2 - r.2) ^ 2) * h

theorem polyLength_map_rotAbout (theta ox oy : ℝ) :
    ∀ pts : List (ℝ × ℝ), polyLength (pts.map (rotAbout theta ox oy)) = polyLength pts
  | [] => rfl
  | [q] => rfl
  | q :: r :: rest => by
    have ih := polyLength_map_rotAbout theta ox oy (r :: rest)
    simp only [List.map_cons] at ih ⊢
    simp only [polyLength]
    rw [dist2_rotAbout, ih]

/-- Claim C7.  The point rotation used by both backends (the `rot` /
`rot_t` pair of wing_path, viewed as rotation about the pivot):
composing two rotations about the same pivot sums the angles; the
zero-angle rotation is the identity on points and on tangent vectors;
tangent rotations compose additively as well; mapping a rotation over a
path's vertex list preserves the vertex count; every polygonal length
of sampled curve points is preserved exactly (rotation preserves
pairwise distances), and rotation commutes with bezier evaluation, so
the rotated path's total length equals the original's. -/
theorem c7_transform_algebra :
    (∀ a b ox oy : ℝ, ∀ q : ℝ × ℝ,
        rotAbout a ox oy (rotAbout b ox oy q) = rotAbout (a + b) ox oy q)
    ∧ (∀ ox oy : ℝ, ∀ q : ℝ × ℝ, rotAbout 0 ox oy q = q)
    ∧ (∀ x y : ℝ, rot_t (Real.cos 0) (Real.sin 0) x y = (x, y))
    ∧ (∀ a b x y : ℝ,
        rot_t (Real.cos a) (Real.sin a)
            (rot_t (Real.cos b) (Real.sin b) x y).1
            (rot_t (Real.cos b) (Real.sin b) x y).2
          = rot_t (Real.cos (a + b)) (Real.sin (a + b)) x y)
    ∧ (∀ theta ox oy : ℝ, ∀ pts : List (ℝ × ℝ),
        (pts.map (rotAbout theta ox oy)).length = pts.length)
    ∧ (∀ theta ox oy : ℝ, ∀ q r : ℝ × ℝ,
        dist2 (rotAbout theta ox oy q) (rotAbout theta ox oy r) = dist2 q r)
    ∧ (∀ theta ox oy : ℝ, ∀ pts : List (ℝ × ℝ),
        polyLength (pts.map (rotAbout theta ox oy)) = polyLength pts)
    ∧ (∀ theta ox oy : ℝ, ∀ p0 p1 p2 p3 : ℝ × ℝ, ∀ t : ℝ,
        bezPt (rotAbout theta ox oy p0) (rotAbout theta ox oy p1)
            (rotAbout theta ox oy p2) (rotAbout theta ox oy p3) t
          = rotAbout theta ox oy (bezPt p0 p1 p2 p3 t)) := by
  refine ⟨?_, ?_, ?_, ?_, fun _ _ _ pts => pts.length_map _,
    dist2_rotAbout, polyLength_map_rotAbout, ?_⟩
  · intro a b ox oy q
    refine Prod.ext ?_ ?_ <;>
      simp only [rotAbout, rot, Real.cos_add, Real.sin_add] <;> ring
  · intro ox oy q
    refine Prod.ext ?_ ?_ <;>
      simp only [rotAbout, rot, Real.cos_zero, Real.sin_zero] <;> ring
  · intro x y
    refine Prod.ext ?_ ?_ <;>
      simp only [rot_t, Real.cos_zero, Real.sin_zero] <;> ring
  · intro a b x y
    refine Prod.ext ?_ ?_ <;>
      simp only [rot_t, Real.cos_add, Real.sin_add] <;> ring
  · intro theta ox oy p0 p1 p2 p3 t
    refine Prod.ext ?_ ?_ <;>
      simp only [bezPt, rotAbout, rot, bez1] <;> ring

/-! ## Bernstein bounds for cubic segments -/

theorem bez1_le {M a b c d t : ℝ} (ha : a ≤ M) (hb : b ≤ M) (hc : c ≤ M) (hd : d ≤ M)
    (h0 : 0 ≤ t) (h1 : t ≤ 1) : bez1 a b c d t ≤ M := by
  have h1t : (0 : ℝ) ≤ 1 - t := by linarith
  have w0 : (0 : ℝ) ≤ (1 - t) ^ 3 := pow_nonneg h1t 3
  have w1 : (0 : ℝ) ≤ 3 * (1 - t) ^ 2 * t :=
    mul_nonneg (mul_nonneg (by norm_num) (sq_nonneg _)) h0
  have w2 : (0 : ℝ) ≤ 3 * (1 - t) * t ^ 2 :=
    mul_nonneg (mul_nonneg (by norm_num) h1t) (pow_nonneg h0 2)
  have w3 : (0 : ℝ) ≤ t ^ 3 := pow_nonneg h0 3
  have key : M - bez1 a b c d t
      = (1 - t) ^ 3 * (M - a) + 3 * (1 - t) ^ 2 * t * (M - b)
        + 3 * (1 - t) * t ^ 2 * (M - c) + t ^ 3 * (M - d) := by
    unfold bez1; ring
  have p0 := mul_nonneg w0 (sub_nonneg.mpr ha)
  have p1 := mul_nonneg w1 (sub_nonneg.mpr hb)
  have p2 := mul_nonneg w2 (sub_nonneg.mpr hc)
  have p3 := mul_nonneg w3 (sub_nonneg.mpr hd)
  linarith

theorem bez1_ge {m a b c d t : ℝ} (ha : m ≤ a) (hb : m ≤ b) (hc : m ≤ c) (hd : m ≤ d)
    (h0 : 0 ≤ t) (h1 : t ≤ 1) : m ≤ bez1 a b c d t := by
  have h := @bez1_le (-m) (-a) (-b) (-c) (-d) t
    (by linarith) (by linarith) (by linarith) (by linarith) h0 h1
  have e : bez1 (-a) (-b) (-c) (-d) t = -bez1 a b c d t := by unfold bez1; ring
  rw [e] at h
  linarith

theorem ellipse_scenario_segs :
    segsOf (ellipse_bezier_path 100 100 50 30)
      = [ ⟨(100, 70), (127.61424, 70), (150, 83.431456), (150, 100)⟩,
          ⟨(150, 100), (150, 116.568544), (127.61424, 130), (100, 130)⟩,
          ⟨(100, 130), (72.38576, 130), (50, 116.568544), (50, 100)⟩,
          ⟨(50, 100), (50, 83.431456), (72.38576, 70), (100, 70)⟩ ] := by
  norm_num [segsOf, ellipse_bezier_path, KAPPA, List.range_succ, Seg.mk.injEq, Prod.mk.injEq]

/-- Claim C8.  Ellipse(center=(100,100), rx=50, ry=30): a closed path
with exactly the 4 cardinal-point vertices; every tangent handle has
length rx*kappa (horizontal handles) or ry*kappa (vertical handles),
kappa = 0.5522848; every point of the resulting curve lies in
[50,150] x [70,130], and each of the four box edges is attained (at the
cardinal vertices), so the bounding box is exactly [50,150] x [70,130]. -/
theorem c8_ellipse_scenario :
    (ellipse_bezier_path 100 100 50 30).c = true
    ∧ (ellipse_bezier_path 100 100 50 30).v = [(100, 70), (150, 100), (100, 130), (50, 100)]
    ∧ (∀ tv ∈ (ellipse_bezier_path 100 100 50 30).tin
          ++ (ellipse_bezier_path 100 100 50 30).tout,
        tv.1 ^ 2 + tv.2 ^ 2 = (50 * KAPPA) ^ 2 ∨ tv.1 ^ 2 + tv.2 ^ 2 = (30 * KAPPA) ^ 2)
    ∧ (∀ s ∈ segsOf (ellipse_bezier_path 100 100 50 30), ∀ t : ℝ, 0 ≤ t → t ≤ 1 →
        50 ≤ (bezSeg s t).1 ∧ (bezSeg s t).1 ≤ 150
        ∧ 70 ≤ (bezSeg s t).2 ∧ (bezSeg s t).2 ≤ 130)
    ∧ bezSeg ⟨(100, 70), (127.61424, 70), (150, 83.431456), (150, 100)⟩ 0 = (100, 70)
    ∧ bezSeg ⟨(150, 100), (150, 116.568544), (127.61424, 130), (100, 130)⟩ 0 = (150, 100)
    ∧ bezSeg ⟨(100, 130), (72.38576, 130), (50, 116.568544), (50, 100)⟩ 0 = (100, 130)
    ∧ bezSeg ⟨(50, 100), (50, 83.431456), (72.38576, 70), (100, 70)⟩ 0 = (50, 100) := by
  refine ⟨rfl, by norm_num [ellipse_bezier_path], ?_, ?_, ?_, ?_, ?_, ?_⟩
  · intro tv htv
    simp only [ellipse_bezier_path, List.mem_append, List.mem_cons,
      List.not_mem_nil, or_false] at htv
    rcases htv with h | h <;>
      rcases h with rfl | rfl | rfl | rfl <;>
      first
        | (left; norm_num [KAPPA]; done)
        | (right; norm_num [KAPPA]; done)
  · intro s hs t h0 h1
    rw [ellipse_scenario_segs] at hs
    simp only [List.mem_cons, List.not_mem_nil, or_false] at hs
    rcases hs with rfl | rfl | rfl | rfl <;>
      refine ⟨?_, ?_, ?_, ?_⟩ <;>
      simp only [bezSeg, bezPt, castPt] <;>
      first
        | exact bez1_ge (by norm_num) (by norm_num) (by norm_num) (by norm_num) h0 h1
        | exact bez1_le (by norm_num) (by norm_num) (by norm_num) (by norm_num) h0 h1
  all_goals
    refine Prod.ext ?_ ?_ <;> simp [bezSeg, bezPt, castPt, bez1]

theorem c8_ellipse_scenario_witness :
    ((⟨(100, 70), (127.61424, 70), (150, 83.431456), (150, 100)⟩ : Seg)
        ∈ segsOf (ellipse_bezier_path 100 100 50 30)
      ∧ (0 : ℝ) ≤ 0 ∧ (0 : ℝ) ≤ 1)
    ∧ (50 ≤ (bezSeg ⟨(100, 70), (127.61424, 70), (150, 83.431456), (150, 100)⟩ (0 : ℝ)).1
        ∧ (bezSeg ⟨(100, 70), (127.61424, 70), (150, 83.431456), (150, 100)⟩ (0 : ℝ)).1 ≤ 150
        ∧ 70 ≤ (bezSeg ⟨(100, 70), (127.61424, 70), (150, 83.431456), (150, 100)⟩ (0 : ℝ)).2
        ∧ (bezSeg ⟨(100, 70), (127.61424, 70), (150, 83.431456), (150, 100)⟩ (0 : ℝ)).2 ≤ 130) :=
  ⟨⟨by simp [ellipse_scenario_segs], le_refl 0, zero_le_one⟩,
   c8_ellipse_scenario.2.2.2.1 _ (by simp [ellipse_scenario_segs]) 0 (le_refl 0) zero_le_one⟩

/-! ## Backend geometry comparison (vector vs animation body) -/

theorem svg_body_segs_eq : SVG.body_path
    = [ ⟨(200, 128.48), (289.76, 128.48), (364.56, 242.72), (342.12, 348.8)⟩,
        ⟨(342.12, 348.8), (327.16, 405.92), (259.84, 430.4), (200, 422.24)⟩,
        ⟨(200, 422.24), (140.16, 430.4), (72.84, 405.92), (57.88, 348.8)⟩,
        ⟨(57.88, 348.8), (35.44, 242.72), (110.24, 128.48), (200, 128.48)⟩ ] := by
  norm_num [SVG.body_path, SVG.p, SVG.PSIZE, SVG.CX, SVG.CY, SVG.ART_W, SVG.ART_H,
    Seg.mk.injEq, Prod.mk.injEq]

theorem lottie_body_segs_eq : lottie_body_segs
    = [ ⟨(200, 128.48), (267.32, 128.48), (342.12, 177.44), (342.12, 250.88)⟩,
        ⟨(342.12, 250.88), (342.12, 324.32), (349.6, 405.92), (312.2, 381.44)⟩,
        ⟨(312.2, 381.44), (274.8, 405.92), (259.84, 422.24), (200, 422.24)⟩,
        ⟨(200, 422.24), (140.16, 422.24), (50.4, 405.92), (87.8, 381.44)⟩,
        ⟨(87.8, 381.44), (125.2, 405.92), (57.88, 324.32), (57.88, 250.88)⟩,
        ⟨(57.88, 250.88), (57.88, 177.44), (132.68, 128.48), (200, 128.48)⟩ ] := by
  norm_num [lottie_body_segs, segsOf, egg_shape_path, p, PSIZE, CX, CY, W, H,
    List.range_succ, Seg.mk.injEq, Prod.mk.injEq]

/-- On the right-upper egg segment the x-coordinate never exceeds
343.616 (its maximum is about 343.524 at t = 2/7, although one control
point sits at x = 349.6). -/
theorem egg_right_upper_x_le {t : ℝ} (h0 : 0 ≤ t) (_h1 : t ≤ 1) :
    bez1 ((342.12 : ℚ) : ℝ) ((342.12 : ℚ) : ℝ) ((349.6 : ℚ) : ℝ) ((312.2 : ℚ) : ℝ) t
      ≤ 343.616 := by
  push_cast
  unfold bez1
  have key : (343.616 : ℝ)
      - ((1 - t) ^ 3 * 342.12 + 3 * (1 - t) ^ 2 * t * 342.12
          + 3 * (1 - t) * t ^ 2 * 349.6 + t ^ 3 * 312.2)
      = 52.36 * (t * (t - 2/7) ^ 2) + 7.48 * ((t - 2/7) ^ 2)
        + (1.496 - 29.92 / 49) := by ring
  have hp1 : (0 : ℝ) ≤ t * (t - 2/7) ^ 2 := mul_nonneg h0 (sq_nonneg _)
  have hp2 : (0 : ℝ) ≤ (t - 2/7) ^ 2 := sq_nonneg _
  linarith

/-- Every point of the Lottie egg body curve has x-coordinate at most
343.616. -/
theorem lottie_body_x_le {s : Seg} (hs : s ∈ lottie_body_segs) {t : ℝ}
    (h0 : 0 ≤ t) (h1 : t ≤ 1) : (bezSeg s t).1 ≤ 343.616 := by
  rw [lottie_body_segs_eq] at hs
  simp only [List.mem_cons, List.not_mem_nil, or_false] at hs
  rcases hs with rfl | rfl | rfl | rfl | rfl | rfl
  · simp only [bezSeg, bezPt, castPt]
    exact bez1_le (by norm_num) (by norm_num) (by norm_num) (by norm_num) h0 h1
  · simp only [bezSeg, bezPt, castPt]
    exact egg_right_upper_x_le h0 h1
  · simp only [bezSeg, bezPt, castPt]
    exact bez1_le (by norm_num) (by norm_num) (by norm_num) (by norm_num) h0 h1
  · simp only [bezSeg, bezPt, castPt]
    exact bez1_le (by norm_num) (by norm_num) (by norm_num) (by norm_num) h0 h1
  · simp only [bezSeg, bezPt, castPt]
    exact bez1_le (by norm_num) (by norm_num) (by norm_num) (by norm_num) h0 h1
  · simp only [bezSeg, bezPt, castPt]
    exact bez1_le (by norm_num) (by norm_num) (by norm_num) (by norm_num) h0 h1

/-- Claim C3, counterexample: the closed body curve the vector backend
emits and the one the animation backend emits are different point sets
(with the very same shared constants CX=200, CY=240, PSIZE=340): the
SVG body attains x ≈ 346.14 (at t = 7/8 on its first segment) while no
point of the Lottie egg has x beyond 343.616. -/
theorem c3_body_curves_differ_cex :
    curvePoints SVG.body_path ≠ curvePoints lottie_body_segs := by
  intro heq
  have hmem : bezSeg ⟨(200, 128.48), (289.76, 128.48), (364.56, 242.72), (342.12, 348.8)⟩
        ((7 : ℝ)/8) ∈ curvePoints SVG.body_path := by
    refine ⟨_, ?_, (7 : ℝ)/8, by norm_num, by norm_num, rfl⟩
    rw [svg_body_segs_eq]
    simp
  have hx : (343.616 : ℝ)
      < (bezSeg ⟨(200, 128.48), (289.76, 128.48), (364.56, 242.72), (342.12, 348.8)⟩
          ((7 : ℝ)/8)).1 := by
    norm_num [bezSeg, bezPt, castPt, bez1]
  rw [heq] at hmem
  obtain ⟨s, hs, t, h0, h1, hb⟩ := hmem
  have hle := lottie_body_x_le hs h0 h1
  rw [hb] at hle
  linarith

/-- Claim C3 (amended).  The two backends share the scale constants
(CX=200, CY=240, PSIZE=340) and the ellipse primitive produces the very
same four cubic segments in both backends for every center and radii;
the egg-shaped body, however, is NOT the same curve in the two
backends: the vector backend draws it with 4 cubic segments, the
animation backend with 6, with genuinely different point sets. -/
theorem c3_backend_geometry :
    (∀ cx cy rx ry : ℚ,
        segsOf (ellipse_bezier_path cx cy rx ry) = SVG.ellipse_path cx cy rx ry)
    ∧ SVG.CX = CX ∧ SVG.CY = CY ∧ SVG.PSIZE = PSIZE
    ∧ SVG.body_path.length = 4 ∧ lottie_body_segs.length = 6 := by
  refine ⟨?_, by norm_num [SVG.CX, SVG.ART_W, CX, W],
    by norm_num [SVG.CY, SVG.ART_H, CY, H], rfl,
    by rw [svg_body_segs_eq]; rfl, by rw [lottie_body_segs_eq]; rfl⟩
  intro cx cy rx ry
  simp only [segsOf, ellipse_bezier_path, SVG.ellipse_path, KAPPA, List.range_succ,
    List.range_zero, List.map_nil, List.map_cons, List.map_append, List.nil_append,
    List.cons_append, List.getD_cons_zero, List.getD_cons_succ, List.length_cons,
    List.length_nil, List.cons.injEq, Seg.mk.injEq, Prod.mk.injEq, and_true]
  norm_num
  ring_nf
  tauto

end Nudgy
